import Mathlib

/-!
A shallow embedding of `src/backend/app.py` (a Flask + SQLAlchemy + py_webauthn
attendance application) and proofs about its ceremony logic.

Modelling conventions:
* Machine floats of the Python source are modelled as rationals; the
  transcendental primitives used by `distance` (`math.radians`, `math.sin`,
  `math.cos`, `math.sqrt`, `math.atan2`) are collected in a `FloatOps`
  structure over which every statement is parametric.
* The external `webauthn` library (its `parse_raw` constructors and its
  `verify_registration_response` / `verify_authentication_response`
  functions) is an external collaborator, not code of this repository; it is
  modelled as an abstract `WebAuthnLib` record of functions, over which
  statements quantify.  The configuration constants `ORIGIN` and `RP_ID`
  passed to it are fixed strings in the source, so the abstract library
  closes over them.
* Bytes values (challenges, credential ids, public keys) are modelled as
  `String`; SQLite integer columns as `Nat`.
* The Flask session is an explicit record; the database is an explicit record
  of row lists, with each `db.session.commit()` modelled as a separate pure
  state transition (this matters: the source commits the Employee row before
  attempting the Credential row).
-/

/-- Abstract numeric primitives standing for CPython's `math` module as used
by `distance`.  Statements quantify over an arbitrary instance, so nothing is
assumed about the real trigonometric functions. -/
structure FloatOps where
  radians : ℚ → ℚ
  sin : ℚ → ℚ
  cos : ℚ → ℚ
  sqrt : ℚ → ℚ
  atan2 : ℚ → ℚ → ℚ

/-- `RP_ID = 'localhost'` from the source. -/
def RP_ID : String := "localhost"

/-- `RP_NAME = 'Attendance System'` from the source. -/
def RP_NAME : String := "Attendance System"

/-- `ORIGIN = 'http://127.0.0.1:5000'` from the source. -/
def ORIGIN : String := "http://127.0.0.1:5000"

/-- `OFFICE_LATITUDE = 37.7749` from the source. -/
def OFFICE_LATITUDE : ℚ := 37.7749

/-- `OFFICE_LONGITUDE = -122.4194` from the source. -/
def OFFICE_LONGITUDE : ℚ := -122.4194

/-- `ALLOWED_DISTANCE_METERS = 100` from the source. -/
def ALLOWED_DISTANCE_METERS : ℚ := 100

/-- The `distance` function of the source, line for line:
haversine great-circle distance on a spherical earth of radius
`R = 6371e3` metres, written over the abstract `FloatOps`. -/
def distance (ops : FloatOps) (lat1 lon1 lat2 lon2 : ℚ) : ℚ :=
  let R : ℚ := 6371000  -- 6371e3 metres
  let phi1 := ops.radians lat1
  let phi2 := ops.radians lat2
  let delta_phi := ops.radians (lat2 - lat1)
  let delta_lambda := ops.radians (lon2 - lon1)
  let a := ops.sin (delta_phi / 2) ^ 2 +
    ops.cos phi1 * ops.cos phi2 * ops.sin (delta_lambda / 2) ^ 2
  let c := 2 * ops.atan2 (ops.sqrt a) (ops.sqrt (1 - a))
  R * c

/-!
## Python values, `str()` and JSON

`login_finish` contains `AuthenticationCredential.parse_raw(str(credential).replace("'", "\""))`
where `credential` is a dict obtained from `request.get_json()`.  WebAuthn
ceremony-finish payloads consist of strings and nested objects only, so a
Python value is modelled as that fragment.  `pyStr` models CPython's
`str()` / `repr()` on such values restricted to printable ASCII without
control characters (the only escapes produced are for backslash and for the
chosen quote character; CPython prefers single quotes and switches to double
quotes when the string contains a single quote but no double quote).
-/

/-- A JSON-like Python value: a string or an object with string keys. -/
inductive PyVal where
  | str (s : String) : PyVal
  | obj (fields : List (String × PyVal)) : PyVal

/-- Escape a character for CPython string repr with quote character `q`:
backslash doubles, the quote character gets a backslash, everything else
(printable, non-control) is unchanged. -/
def pyEscapeChar (q : Char) (c : Char) : List Char :=
  if c = '\\' then ['\\', '\\']
  else if c = q then ['\\', q]
  else [c]

/-- CPython `repr` of a string, over its character list: single quotes
preferred; double quotes when the string contains `'` but not `"`. -/
def pyReprStrChars (s : List Char) : List Char :=
  let q : Char := if s.contains '\'' && !(s.contains '"') then '"' else '\''
  q :: (s.foldr (fun c acc => pyEscapeChar q c ++ acc) [] ++ [q])

mutual
/-- CPython `repr` of a `PyVal` (dicts render as `{k: v, ...}` with
repr-ed keys and values, `", "`-separated). -/
def pyReprValChars : PyVal → List Char
  | .str s => pyReprStrChars s.toList
  | .obj fields => '{' :: (pyReprFieldsChars fields ++ ['}'])

/-- repr of the `k: v` entries of a dict. -/
def pyReprFieldsChars : List (String × PyVal) → List Char
  | [] => []
  | [(k, v)] => pyReprStrChars k.toList ++ ':' :: ' ' :: pyReprValChars v
  | (k, v) :: rest =>
    pyReprStrChars k.toList ++ ':' :: ' ' :: pyReprValChars v ++
      ',' :: ' ' :: pyReprFieldsChars rest
end

/-- CPython `str()`: the identity on strings, `repr` on dicts.  The source
applies it to the dict `credential`. -/
def pyStr : PyVal → String
  | .str s => s
  | .obj fields => String.mk (pyReprValChars (.obj fields))

/-- The source's `.replace("'", "\"")`: every single-quote character becomes
a double quote. -/
def pyReplaceQuotes (s : String) : String :=
  String.mk (s.toList.map (fun c => if c = '\'' then '"' else c))

/-- Parse the body of a JSON string literal after the opening `"`, handling
the escapes `\"`, `\\` and `\/` plus raw characters; returns the decoded
string and the rest of the input. -/
def parseJStrBody : List Char → Option (String × List Char)
  | [] => none
  | '"' :: rest => some ("", rest)
  | '\\' :: c :: rest =>
    match parseJStrBody rest with
    | none => none
    | some (s, r) =>
      if c = '"' || c = '\\' || c = '/' then some (String.mk (c :: s.toList), r)
      else none
  | '\\' :: [] => none
  | c :: rest =>
    match parseJStrBody rest with
    | none => none
    | some (s, r) => some (String.mk (c :: s.toList), r)

/-- Drop JSON whitespace. -/
def skipWs : List Char → List Char
  | c :: rest => if c = ' ' || c = '\t' || c = '\n' || c = '\r' then skipWs rest else c :: rest
  | [] => []

mutual
/-- Fuel-indexed recursive-descent parser for the JSON fragment of string
literals and objects (ceremony payloads contain nothing else). -/
def parseJVal (fuel : ℕ) (l : List Char) : Option (PyVal × List Char) :=
  match fuel with
  | 0 => none
  | fuel + 1 =>
    match skipWs l with
    | '"' :: rest =>
      match parseJStrBody rest with
      | none => none
      | some (s, r) => some (.str s, r)
    | '{' :: rest =>
      match skipWs rest with
      | '}' :: r => some (.obj [], r)
      | r =>
        match parseJFields fuel r with
        | none => none
        | some (fs, r2) => some (.obj fs, r2)
    | _ => none

/-- Parse one or more `"key": value` members followed by `}`. -/
def parseJFields (fuel : ℕ) (l : List Char) : Option (List (String × PyVal) × List Char) :=
  match fuel with
  | 0 => none
  | fuel + 1 =>
    match skipWs l with
    | '"' :: rest =>
      match parseJStrBody rest with
      | none => none
      | some (k, r) =>
        match skipWs r with
        | ':' :: r2 =>
          match parseJVal fuel r2 with
          | none => none
          | some (v, r3) =>
            match skipWs r3 with
            | ',' :: r4 =>
              match parseJFields fuel r4 with
              | none => none
              | some (fs, r5) => some ((k, v) :: fs, r5)
            | '}' :: r4 => some ([(k, v)], r4)
            | _ => none
        | _ => none
    | _ => none
end

/-- Parse a complete JSON document (of the string/object fragment): one value
followed only by whitespace. -/
def jsonParse (s : String) : Option PyVal :=
  match parseJVal (s.length + 1) s.toList with
  | none => none
  | some (v, rest) =>
    match skipWs rest with
    | [] => some v
    | _ => none

/-!
## Database rows, session, request bodies
-/

/-- The `Employee` model: surrogate `id`, unique `user_handle`, unique
`username`. -/
structure EmployeeRow where
  id : ℕ
  user_handle : String
  username : String
deriving DecidableEq

/-- The `Credential` model: unique `credential_id` bytes, `public_key`
bytes, `sign_count` integer, `employee_id` foreign key. -/
structure CredentialRow where
  credential_id : String
  public_key : String
  sign_count : ℕ
  employee_id : ℕ
deriving DecidableEq

/-- The SQLite database: the two row tables, the attendance table (only the
`employee_id` of each appended row matters here), and the next autoincrement
Employee id. -/
structure DB where
  employees : List EmployeeRow
  credentials : List CredentialRow
  attendance : List ℕ
  nextEmpId : ℕ
deriving DecidableEq

/-- The Flask session of one actor, holding the three keys the source ever
writes: `challenge`, `username`, `user_handle`.  `none` means the key is
absent. -/
structure Session where
  challenge : Option String
  username : Option String
  user_handle : Option String
deriving DecidableEq

/-- `get_employee_by_username`: `Employee.query.filter_by(username=...).first()`. -/
def get_employee_by_username (db : DB) (u : String) : Option EmployeeRow :=
  db.employees.find? (fun e => e.username == u)

/-- `get_employee_by_user_handle`: `filter_by(user_handle=...).first()`. -/
def get_employee_by_user_handle (db : DB) (h : String) : Option EmployeeRow :=
  db.employees.find? (fun e => e.user_handle == h)

/-- `get_credentials_by_employee_id`: `filter_by(employee_id=...).all()`. -/
def get_credentials_by_employee_id (db : DB) (i : ℕ) : List CredentialRow :=
  db.credentials.filter (fun c => c.employee_id == i)

/-- Python truthiness of a `PyVal` (empty string and empty dict are falsy). -/
def pyTruthy : PyVal → Bool
  | .str s => !(s == "")
  | .obj fields => !fields.isEmpty

/-- Truthiness of a value that may be absent (`data.get(...)` returns
`None` when the key is missing, and `None` is falsy). -/
def optPyTruthy : Option PyVal → Bool
  | none => false
  | some v => pyTruthy v

/-- Truthiness of an optional string/bytes value. -/
def optStrTruthy : Option String → Bool
  | none => false
  | some s => !(s == "")

/-- The `location` dict of a `login_finish` body: its `latitude` and
`longitude` entries (absent = `none`), plus whether it has any further key
(which matters only for the dict's own truthiness). -/
structure LocDict where
  latitude : Option ℚ
  longitude : Option ℚ
  extra : Bool
deriving DecidableEq

/-- Python truthiness of the location dict: nonempty. -/
def locTruthy (l : LocDict) : Bool :=
  l.latitude.isSome || l.longitude.isSome || l.extra

/-- Truthiness of `data.get('location')`. -/
def optLocTruthy : Option LocDict → Bool
  | none => false
  | some l => locTruthy l

/-- The JSON body of a `/login/finish` request: its `credential` and
`location` members. -/
structure LoginFinishBody where
  credential : Option PyVal
  location : Option LocDict

/-!
## The abstract webauthn library
-/

/-- Result of `RegistrationCredential.parse_raw`: an opaque parsed
attestation (the model keeps only the raw text; verification is abstract). -/
structure RegParsed where
  raw : String
deriving DecidableEq

/-- Result of `webauthn.verify_registration_response`: the fields the source
reads from it. -/
structure RegVerif where
  credential_id : String
  credential_public_key : String
  sign_count : ℕ
deriving DecidableEq

/-- Result of `AuthenticationCredential.parse_raw`: the fields the source
reads (`id`, `response.user_handle`, which is optional in the wire format),
plus the rest of the parsed object, opaque to the source. -/
structure AuthParsed where
  id : String
  userHandle : Option String
  rest : String
deriving DecidableEq

/-- Result of `webauthn.verify_authentication_response`: the source reads
only `new_sign_count`. -/
structure AuthVerif where
  new_sign_count : ℕ
deriving DecidableEq

/-- The external `webauthn` library as an abstract record.  Parsers return
`none` when `parse_raw` raises; verifiers return `.error` when verification
raises.  `ORIGIN` and `RP_ID`, constants in the source, are closed over.
`verifyRegistration` receives the parsed attestation and the expected
challenge; `verifyAuthentication` receives the parsed assertion, the
expected challenge, the stored public key and the stored current sign
count. -/
structure WebAuthnLib where
  parseRegistration : String → Option RegParsed
  verifyRegistration : RegParsed → String → Except String RegVerif
  parseAuthentication : String → Option AuthParsed
  verifyAuthentication : AuthParsed → String → String → ℕ → Except String AuthVerif

/-!
## Route handlers

Each handler returns (result, database, session).  Result constructors map
one-to-one onto the `return jsonify(...)` sites of the source function.
-/

/-- Outcomes of `/register/start`. -/
inductive RegStartResult where
  | usernameRequired : RegStartResult  -- 'Username is required', 400
  | usernameTaken : RegStartResult     -- 'Username already exists', 400
  | started : RegStartResult           -- jsonify(options), 200
deriving DecidableEq

/-- Outcomes of `/register/finish`. -/
inductive RegFinishResult where
  | missingSession : RegFinishResult        -- 'Missing required session data', 400
  | regFailed : RegFinishResult             -- 'Registration failed: {e}', 400
  | serverError : RegFinishResult           -- unhandled IntegrityError, HTTP 500
  | success (username : String) : RegFinishResult
deriving DecidableEq

/-- Outcomes of `/login/start`. -/
inductive LoginStartResult where
  | usernameRequired : LoginStartResult
  | userNotFound : LoginStartResult         -- 'User not found', 404
  | noCredentials : LoginStartResult        -- 'No credentials found for this user', 404
  | started (allowed : List String) : LoginStartResult
deriving DecidableEq

/-- Outcomes of `/login/finish`. -/
inductive LoginFinishResult where
  | missingFields : LoginFinishResult       -- 'Credential and location are required', 400
  | missingLatLon : LoginFinishResult       -- 'Latitude and longitude are required', 400
  | outOfRange (dist : ℚ) : LoginFinishResult  -- 'You are {dist:.0f} meters away...', 403
  | missingChallenge : LoginFinishResult    -- 'Missing challenge from session', 400
  | userNotFound : LoginFinishResult        -- 'User not found', 404
  | credentialNotFound : LoginFinishResult  -- 'Credential not found', 404
  | authFailed : LoginFinishResult          -- 'Authentication failed: {e}', 400
  | success (username : String) : LoginFinishResult
deriving DecidableEq

/-- Whether a finish result is the success response. -/
def LoginFinishResult.isSuccess : LoginFinishResult → Bool
  | .success _ => true
  | _ => false

/-- Whether a finish result is the geofence 403 response. -/
def LoginFinishResult.isOutOfRange : LoginFinishResult → Bool
  | .outOfRange _ => true
  | _ => false

/-- `register_start`.  The fresh challenge generated by
`generate_registration_options` and the fresh `uuid.uuid4()` user handle are
nondeterministic in the source and appear as parameters. -/
def register_start (freshChallenge freshHandle : String) (username : Option String)
    (db : DB) (sess : Session) : RegStartResult × DB × Session :=
  match username with
  | none => (.usernameRequired, db, sess)
  | some u =>
    if u == "" then (.usernameRequired, db, sess)
    else if (get_employee_by_username db u).isSome then (.usernameTaken, db, sess)
    else (.started, db, ⟨some freshChallenge, some u, some freshHandle⟩)

/-- `register_finish`.  `rawBody` is `request.data`, `body` is
`request.get_json()`.  Unique-constraint violations on `db.session.commit()`
raise `IntegrityError`, which the source does not catch: modelled as
`.serverError` with the session untouched.  The Employee commit precedes the
Credential insert, so a failing Credential commit leaves the Employee row in
the database. -/
def register_finish (lib : WebAuthnLib) (rawBody : String) (body : Option PyVal)
    (db : DB) (sess : Session) : RegFinishResult × DB × Session :=
  match sess.challenge, sess.username, sess.user_handle with
  | some ch, some u, some h =>
    if !optPyTruthy body || ch == "" || u == "" || h == "" then (.missingSession, db, sess)
    else
      match lib.parseRegistration rawBody with
      | none => (.regFailed, db, sess)
      | some parsed =>
        match lib.verifyRegistration parsed ch with
        | .error _ => (.regFailed, db, sess)
        | .ok rv =>
          if db.employees.any (fun e => e.username == u || e.user_handle == h) then
            (.serverError, db, sess)
          else
            let empId := db.nextEmpId
            let db1 : DB := { db with
              employees := db.employees ++ [⟨empId, h, u⟩],
              nextEmpId := empId + 1 }
            if db1.credentials.any (fun c => c.credential_id == rv.credential_id) then
              (.serverError, db1, sess)
            else
              let db2 : DB := { db1 with
                credentials := db1.credentials ++
                  [⟨rv.credential_id, rv.credential_public_key, rv.sign_count, empId⟩] }
              (.success u, db2, ⟨none, none, none⟩)
  | _, _, _ => (.missingSession, db, sess)

/-- `login_start`.  The fresh challenge from
`generate_authentication_options` is a parameter; only the `challenge`
session key is written. -/
def login_start (freshChallenge : String) (username : Option String)
    (db : DB) (sess : Session) : LoginStartResult × DB × Session :=
  match username with
  | none => (.usernameRequired, db, sess)
  | some u =>
    if u == "" then (.usernameRequired, db, sess)
    else
      match get_employee_by_username db u with
      | none => (.userNotFound, db, sess)
      | some emp =>
        let creds := get_credentials_by_employee_id db emp.id
        if creds.isEmpty then (.noCredentials, db, sess)
        else (.started (creds.map (fun c => c.credential_id)), db,
          { sess with challenge := some freshChallenge })

/-- `login_finish`, line for line: presence (truthiness) checks, geofence,
challenge lookup, then the try block (reparse of `str(credential)` with
quotes replaced, user and credential lookups, library verification, counter
persist, attendance append, challenge pop). -/
def login_finish (ops : FloatOps) (lib : WebAuthnLib) (body : LoginFinishBody)
    (db : DB) (sess : Session) : LoginFinishResult × DB × Session :=
  if !optPyTruthy body.credential || !optLocTruthy body.location then
    (.missingFields, db, sess)
  else
    match body.credential, body.location with
    | some cred, some loc =>
      match loc.latitude, loc.longitude with
      | some lat, some lon =>
        if lat == 0 || lon == 0 then (.missingLatLon, db, sess)
        else
          let dist := distance ops lat lon OFFICE_LATITUDE OFFICE_LONGITUDE
          if ALLOWED_DISTANCE_METERS < dist then (.outOfRange dist, db, sess)
          else
            match sess.challenge with
            | none => (.missingChallenge, db, sess)
            | some ch =>
              if ch == "" then (.missingChallenge, db, sess)
              else
                match lib.parseAuthentication (pyReplaceQuotes (pyStr cred)) with
                | none => (.authFailed, db, sess)
                | some parsed =>
                  match parsed.userHandle with
                  | none => (.authFailed, db, sess)  -- user_handle.decode raises on None
                  | some uh =>
                    match get_employee_by_user_handle db uh with
                    | none => (.userNotFound, db, sess)
                    | some emp =>
                      match db.credentials.find? (fun c => c.credential_id == parsed.id) with
                      | none => (.credentialNotFound, db, sess)
                      | some dbCred =>
                        match lib.verifyAuthentication parsed ch dbCred.public_key dbCred.sign_count with
                        | .error _ => (.authFailed, db, sess)
                        | .ok rv =>
                          let db1 : DB := { db with
                            credentials := db.credentials.map (fun c =>
                              if c.credential_id == dbCred.credential_id then
                                { c with sign_count := rv.new_sign_count }
                              else c) }
                          let db2 : DB := { db1 with attendance := db1.attendance ++ [emp.id] }
                          (.success emp.username, db2, { sess with challenge := none })
      | _, _ => (.missingLatLon, db, sess)  -- `if not lat or not lon` with a key absent
    | _, _ => (.missingFields, db, sess)

/-!
## Derived predicates and concrete instances used in statements and witnesses
-/

/-- The stored `sign_count` of the credential row with the given
`credential_id`, if any. -/
def signCountOf (db : DB) (cid : String) : Option ℕ :=
  (db.credentials.find? (fun c => c.credential_id == cid)).map (fun c => c.sign_count)

/-- The `credential_id` unique constraint: no two credential rows share an
id.  Holds for every database reachable through the handlers. -/
def UniqueCredIds (db : DB) : Prop :=
  (db.credentials.map (fun c => c.credential_id)).Nodup

/-- The foreign-key/autoincrement invariant: every credential row references
an employee id below the next fresh id. -/
def RegWF (db : DB) : Prop :=
  ∀ c ∈ db.credentials, c.employee_id < db.nextEmpId

/-- The monotonicity policy of the external library's
`verify_authentication_response`, modelled from the spec: a verification
that succeeds reports a new counter at least the stored one. -/
def CounterPolicy (lib : WebAuthnLib) : Prop :=
  ∀ a ch pk cur rv, lib.verifyAuthentication a ch pk cur = Except.ok rv →
    cur ≤ rv.new_sign_count

/-- State transition of one `/login/finish` call (result discarded). -/
def loginStep (ops : FloatOps) (lib : WebAuthnLib) (st : DB × Session)
    (body : LoginFinishBody) : DB × Session :=
  ((login_finish ops lib body st.1 st.2).2.1, (login_finish ops lib body st.1 st.2).2.2)

/-- Run a sequence of `/login/finish` calls in one actor session. -/
def runLoginSeq (ops : FloatOps) (lib : WebAuthnLib) (st : DB × Session)
    (bodies : List LoginFinishBody) : DB × Session :=
  bodies.foldl (loginStep ops lib) st

/-- The identity instantiation of the float primitives (used to evaluate the
model on concrete inputs; all universal statements hold for every instance). -/
def opsId : FloatOps := ⟨fun x => x, fun x => x, fun _ => 1, fun x => x, fun y _ => y⟩

/-- Instantiation making every primitive zero, so every distance is 0. -/
def opsZero : FloatOps := ⟨fun _ => 0, fun _ => 0, fun _ => 0, fun _ => 0, fun _ _ => 0⟩

/-- A library stub whose parsers always fail. -/
def libNone : WebAuthnLib :=
  ⟨fun _ => none, fun _ _ => .error "invalid", fun _ => none, fun _ _ _ _ => .error "invalid"⟩

/-- A library stub that accepts everything: registration verifies to
credential `cidX`, authentication parses to credential `cid0` of user handle
`h0` and verifies with new counter 1. -/
def libStub : WebAuthnLib :=
  ⟨fun r => some ⟨r⟩, fun _ _ => .ok ⟨"cidX", "pkX", 0⟩,
   fun _ => some ⟨"cid0", some "h0", ""⟩, fun _ _ _ _ => .ok ⟨1⟩⟩

/-- A library stub that parses but rejects every verification. -/
def libReject : WebAuthnLib :=
  ⟨fun r => some ⟨r⟩, fun _ _ => .error "bad attestation",
   fun _ => some ⟨"cid0", some "h0", ""⟩, fun _ _ _ _ => .error "bad signature"⟩

/-- The empty database. -/
def db0 : DB := ⟨[], [], [], 0⟩

/-- A database with one registered employee `alice` owning credential `cid0`. -/
def dbAlice : DB := ⟨[⟨0, "h0", "alice"⟩], [⟨"cid0", "pk0", 0, 0⟩], [], 1⟩

/-- A database with employee `alice` owning credential `cidX` (the id the
`libStub` registration verifier reports). -/
def dbAliceX : DB := ⟨[⟨0, "hA", "alice"⟩], [⟨"cidX", "pkA", 0, 0⟩], [], 1⟩

/-- A session holding only a pending challenge `"c"`. -/
def sessC : Session := ⟨some "c", none, none⟩

/-- A registration session pending for username `bob`, handle `hB`. -/
def sessBob : Session := ⟨some "c", some "bob", some "hB"⟩

/-- A login-finish body located at (1, 1), far from the office. -/
def bodyFar : LoginFinishBody := ⟨some (.str "payload"), some ⟨some 1, some 1, false⟩⟩

/-- A login-finish body located exactly at the office coordinate. -/
def bodyOffice : LoginFinishBody :=
  ⟨some (.str "payload"), some ⟨some OFFICE_LATITUDE, some OFFICE_LONGITUDE, false⟩⟩

/-- A syntactically well-formed assertion payload one of whose string values
contains a single-quote character. -/
def cred10 : PyVal := .obj [("id", .str "ab'cd"), ("type", .str "public-key")]

/-- The JSON text a client would send for `cred10`. -/
def raw10 : String := "\x7b\"id\": \"ab'cd\", \"type\": \"public-key\"\x7d"

/-- A login-finish body carrying `cred10` at the office coordinate. -/
def body10 : LoginFinishBody :=
  ⟨some cred10, some ⟨some OFFICE_LATITUDE, some OFFICE_LONGITUDE, false⟩⟩

/-!
## Characterization lemmas
-/

/-- Case analysis of `login_finish`: either the call fails and neither the
database nor the session changes, or every gate passed and the call returns
success, persists the library-reported counter, appends one attendance row
and pops the challenge. -/
theorem login_finish_cases (ops : FloatOps) (lib : WebAuthnLib) (body : LoginFinishBody)
    (db : DB) (sess : Session) :
    ((login_finish ops lib body db sess).1.isSuccess = false ∧
      (login_finish ops lib body db sess).2.1 = db ∧
      (login_finish ops lib body db sess).2.2 = sess)
    ∨ (∃ cred loc lat lon ch parsed uh emp dbCred rv,
        body.credential = some cred ∧ pyTruthy cred = true ∧
        body.location = some loc ∧ loc.latitude = some lat ∧ loc.longitude = some lon ∧
        (lat == (0:ℚ) || lon == (0:ℚ)) = false ∧
        ¬ ALLOWED_DISTANCE_METERS < distance ops lat lon OFFICE_LATITUDE OFFICE_LONGITUDE ∧
        sess.challenge = some ch ∧ (ch == "") = false ∧
        lib.parseAuthentication (pyReplaceQuotes (pyStr cred)) = some parsed ∧
        parsed.userHandle = some uh ∧
        get_employee_by_user_handle db uh = some emp ∧
        db.credentials.find? (fun c => c.credential_id == parsed.id) = some dbCred ∧
        lib.verifyAuthentication parsed ch dbCred.public_key dbCred.sign_count = .ok rv ∧
        login_finish ops lib body db sess =
          (.success emp.username,
            { db with
                credentials := db.credentials.map (fun c =>
                  if c.credential_id == dbCred.credential_id then
                    { c with sign_count := rv.new_sign_count }
                  else c),
                attendance := db.attendance ++ [emp.id] },
            { sess with challenge := none })) := by
  dsimp only [login_finish]
  repeat' split
  all_goals try exact Or.inl ⟨rfl, rfl, rfl⟩
  refine Or.inr ⟨_, _, _, _, _, _, _, _, _, _, by assumption, ?_, by assumption,
    by assumption, by assumption, ?_, by assumption, by assumption, ?_, by assumption,
    by assumption, by assumption, by assumption, by assumption, rfl⟩
  · simp_all [optPyTruthy, optLocTruthy]
  · simp_all
  · simp_all

/-- Characterization of a successful `register_finish`: all session pieces
were pending and truthy, the attestation parsed and verified, both
uniqueness checks passed, one Employee row and one Credential row were
appended with a fresh employee id, and the whole session was cleared. -/
theorem register_finish_success_cases (lib : WebAuthnLib) (rawBody : String)
    (body : Option PyVal) (db : DB) (sess : Session) (u : String)
    (h : (register_finish lib rawBody body db sess).1 = .success u) :
    ∃ ch hdl parsed rv,
      sess.challenge = some ch ∧ sess.username = some u ∧ sess.user_handle = some hdl ∧
      optPyTruthy body = true ∧ (ch == "") = false ∧ (u == "") = false ∧ (hdl == "") = false ∧
      lib.parseRegistration rawBody = some parsed ∧
      lib.verifyRegistration parsed ch = .ok rv ∧
      db.employees.any (fun e => e.username == u || e.user_handle == hdl) = false ∧
      db.credentials.any (fun c => c.credential_id == rv.credential_id) = false ∧
      register_finish lib rawBody body db sess =
        (.success u,
          { db with
              employees := db.employees ++ [⟨db.nextEmpId, hdl, u⟩],
              credentials := db.credentials ++
                [⟨rv.credential_id, rv.credential_public_key, rv.sign_count, db.nextEmpId⟩],
              nextEmpId := db.nextEmpId + 1 },
          ⟨none, none, none⟩) := by
  dsimp only [register_finish] at h ⊢
  repeat' split at h
  all_goals simp at h
  rename_i x1 x2 x3 ch u0 hdl hch hu hhdl htr x4 parsed hparse x5 rv hverify hex hdup
  subst h
  simp only [Bool.not_eq_true] at htr hex hdup
  refine ⟨ch, hdl, parsed, rv, hch, hu, hhdl, ?_, ?_, ?_, ?_, hparse, hverify, hex, hdup, ?_⟩
  · simp_all
  · simp_all
  · simp_all
  · simp_all
  · simp only [htr, hex, hdup, Bool.false_eq_true, if_false]

/-!
## Claim theorems
-/

/-- C1: the claim that every ceremony-finish attempt with a pending
challenge consumes it even on failure is FALSE of the code: the handlers
pop the session challenge only on the success path.  Concretely: (i) a
`login_finish` rejected by the geofence leaves the challenge `"c"` in the
session; (ii) a `login_finish` whose cryptographic verification fails leaves
the challenge `"c"` in the session; (iii) a `register_finish` whose
attestation verification fails leaves the challenge `"c"` in the session.
In each case the same challenge remains available to a later finish
attempt. -/
theorem c1_failed_finish_keeps_challenge :
    ((login_finish opsId libNone bodyFar db0 sessC).1.isOutOfRange = true ∧
      (login_finish opsId libNone bodyFar db0 sessC).2.2.challenge = some "c") ∧
    ((login_finish opsZero libReject bodyOffice dbAlice sessC).1 = .authFailed ∧
      (login_finish opsZero libReject bodyOffice dbAlice sessC).2.2.challenge = some "c") ∧
    ((register_finish libReject "raw" (some (.str "att")) db0 sessBob).1 = .regFailed ∧
      (register_finish libReject "raw" (some (.str "att")) db0 sessBob).2.2.challenge =
        some "c") := by
  with_unfolding_all decide

/-- C3: the claim that `register_finish` creates the Employee and Credential
rows all-or-nothing is FALSE of the code: the Employee row is committed
first, and when the Credential insert then violates the `credential_id`
unique constraint (here: the attestation re-registers `cidX`, already owned
by `alice`), the handler dies with an unhandled error, leaving the new
Employee `bob` persisted with no Credential row at all. -/
theorem c3_partial_write_orphan_employee :
    (register_finish libStub "raw" (some (.str "att")) dbAliceX sessBob).1 = .serverError ∧
    (register_finish libStub "raw" (some (.str "att")) dbAliceX sessBob).2.1.employees =
      [⟨0, "hA", "alice"⟩, ⟨1, "hB", "bob"⟩] ∧
    (register_finish libStub "raw" (some (.str "att")) dbAliceX sessBob).2.1.credentials =
      dbAliceX.credentials ∧
    ((register_finish libStub "raw" (some (.str "att")) dbAliceX sessBob).2.1.credentials.all
      (fun c => !(c.employee_id == 1))) = true := by
  with_unfolding_all decide

/-- C4: replaying the identical ceremony-finish payload twice in the same
actor session succeeds at most once: a successful `login_finish` pops the
challenge, so the identical second call passes the same presence and
geofence checks and then fails at the challenge lookup; a successful
`register_finish` clears the whole pending session, so the identical second
call fails the session-data check. -/
theorem c4_replay_succeeds_at_most_once :
    (∀ ops lib body db sess,
      (login_finish ops lib body db sess).1.isSuccess = true →
      (login_finish ops lib body
        (login_finish ops lib body db sess).2.1
        (login_finish ops lib body db sess).2.2).1.isSuccess = false)
    ∧ (∀ lib rawBody body db sess u,
      (register_finish lib rawBody body db sess).1 = .success u →
      (register_finish lib rawBody body
        (register_finish lib rawBody body db sess).2.1
        (register_finish lib rawBody body db sess).2.2).1 = .missingSession) := by
  constructor
  · intro ops lib body db sess h
    rcases login_finish_cases ops lib body db sess with ⟨hf, _, _⟩ |
      ⟨cred, loc, lat, lon, ch, parsed, uh, emp, dbCred, rv, hcred, hcredT, hloc, hlat,
        hlon, hz, hd, hch, hch0, hparse, huh, hemp, hfind, hver, heq⟩
    · rw [hf] at h; cases h
    · rw [heq]
      simp [login_finish, hcred, hcredT, hloc, hlat, hlon, hz, hd,
        optPyTruthy, optLocTruthy, locTruthy, LoginFinishResult.isSuccess]
  · intro lib rawBody body db sess u h
    obtain ⟨ch, hdl, parsed, rv, hch, hu, hhdl, htr, hch0, hu0, hhdl0, hparse, hver,
      hex, hdup, heq⟩ := register_finish_success_cases lib rawBody body db sess u h
    rw [heq]
    rfl

/-- C4 witness: a concrete successful login (employee `alice` at the office
coordinate) whose identical replay fails. -/
theorem c4_replay_succeeds_at_most_once_witness :
    (login_finish opsZero libStub bodyOffice dbAlice sessC).1.isSuccess = true ∧
    (login_finish opsZero libStub bodyOffice
      (login_finish opsZero libStub bodyOffice dbAlice sessC).2.1
      (login_finish opsZero libStub bodyOffice dbAlice sessC).2.2).1.isSuccess = false :=
  ⟨by with_unfolding_all decide,
    c4_replay_succeeds_at_most_once.1 opsZero libStub bodyOffice dbAlice sessC
      (by with_unfolding_all decide)⟩

/-- Shared helper: when the computed distance strictly exceeds the allowed
radius, `login_finish` returns `outOfRange` carrying that distance and
touches nothing — for every library, database and session. -/
theorem login_finish_gate_fires (ops : FloatOps) (lib : WebAuthnLib) (db : DB) (sess : Session)
    (cred : PyVal) (loc : LocDict) (lat lon : ℚ)
    (hc : pyTruthy cred = true) (hla : loc.latitude = some lat) (hlo : loc.longitude = some lon)
    (hlat0 : lat ≠ 0) (hlon0 : lon ≠ 0)
    (hgt : ALLOWED_DISTANCE_METERS < distance ops lat lon OFFICE_LATITUDE OFFICE_LONGITUDE) :
    login_finish ops lib ⟨some cred, some loc⟩ db sess =
      (.outOfRange (distance ops lat lon OFFICE_LATITUDE OFFICE_LONGITUDE), db, sess) := by
  have h1 : (lat == (0:ℚ) || lon == (0:ℚ)) = false := by simp [hlat0, hlon0]
  dsimp only [login_finish]
  simp only [optPyTruthy, hc, optLocTruthy, locTruthy, hla, hlo, Option.isSome_some,
    Bool.not_true, Bool.false_or, Bool.true_or, Bool.or_self, Bool.not_false,
    Bool.false_eq_true, if_false, h1, if_pos hgt]

/-- C5: with truthy inputs the geofence gate runs first in `login_finish`:
the haversine `distance` to the office is evaluated before anything else,
and the call returns `outOfRange` carrying exactly that distance if and only
if it strictly exceeds `ALLOWED_DISTANCE_METERS`.  Quantifying over `lib`,
`db` and `sess`, with the state returned unchanged, expresses that no user,
credential or challenge lookup and no verification has happened. -/
theorem c5_geofence_gate_first_and_strict (ops : FloatOps) (lib : WebAuthnLib)
    (db : DB) (sess : Session) (cred : PyVal) (loc : LocDict) (lat lon : ℚ)
    (hc : pyTruthy cred = true) (hla : loc.latitude = some lat) (hlo : loc.longitude = some lon)
    (hlat0 : lat ≠ 0) (hlon0 : lon ≠ 0) :
    (ALLOWED_DISTANCE_METERS < distance ops lat lon OFFICE_LATITUDE OFFICE_LONGITUDE →
      login_finish ops lib ⟨some cred, some loc⟩ db sess =
        (.outOfRange (distance ops lat lon OFFICE_LATITUDE OFFICE_LONGITUDE), db, sess))
    ∧ (∀ d', (login_finish ops lib ⟨some cred, some loc⟩ db sess).1 = .outOfRange d' →
        d' = distance ops lat lon OFFICE_LATITUDE OFFICE_LONGITUDE ∧
        ALLOWED_DISTANCE_METERS < distance ops lat lon OFFICE_LATITUDE OFFICE_LONGITUDE) := by
  constructor
  · intro hgt
    exact login_finish_gate_fires ops lib db sess cred loc lat lon hc hla hlo hlat0 hlon0 hgt
  · intro d' h
    have h1 : (lat == (0:ℚ) || lon == (0:ℚ)) = false := by simp [hlat0, hlon0]
    dsimp only [login_finish] at h
    simp only [optPyTruthy, hc, optLocTruthy, locTruthy, hla, hlo, Option.isSome_some,
      Bool.not_true, Bool.false_or, Bool.true_or, Bool.or_self, Bool.not_false,
      Bool.false_eq_true, if_false, h1] at h
    split at h
    · simp only [LoginFinishResult.outOfRange.injEq] at h
      exact ⟨h.symm, by assumption⟩
    · exfalso
      repeat' split at h
      all_goals simp at h

/-- C5 witness: at location (1, 1) under the identity float instantiation
the distance strictly exceeds 100, and the call returns `outOfRange` with
that distance, leaving database and session untouched. -/
theorem c5_geofence_gate_first_and_strict_witness :
    pyTruthy (.str "payload") = true ∧
    login_finish opsId libNone bodyFar db0 sessC =
      (.outOfRange (distance opsId 1 1 OFFICE_LATITUDE OFFICE_LONGITUDE), db0, sessC) :=
  ⟨by decide,
    (c5_geofence_gate_first_and_strict opsId libNone db0 sessC (.str "payload")
      ⟨some 1, some 1, false⟩ 1 1 (by decide) rfl rfl (by decide) (by decide)).1
      (by with_unfolding_all decide)⟩

/-- C6 counterexample: the claim says the geofence gate fails with
`InvalidCoordinates` whenever `|lat| > 90`.  The code performs no coordinate
validation at all: at latitude 1000 (far outside the valid range) the call
simply computes the haversine distance from the invalid coordinate and
returns the geofence verdict `outOfRange` with it — there is no
coordinate-validation failure (`login_finish` has no such outcome, matching
the source's return sites one-to-one). -/
theorem c6_counterexample_no_invalid_coordinates :
    (90 : ℚ) < 1000 ∧
    login_finish opsId libNone ⟨some (.str "payload"), some ⟨some 1000, some 5, false⟩⟩
        db0 sessC =
      (.outOfRange (distance opsId 1000 5 OFFICE_LATITUDE OFFICE_LONGITUDE), db0, sessC) :=
  ⟨by norm_num,
    login_finish_gate_fires opsId libNone db0 sessC (.str "payload")
      ⟨some 1000, some 5, false⟩ 1000 5 (by decide) rfl rfl (by norm_num) (by norm_num)
      (by with_unfolding_all decide)⟩

/-- C6 amended: the geofence gate is a pure function with *no* failure mode
at all: `distance` is total and `login_finish` never validates coordinate
ranges — its behaviour depends on the submitted coordinates only through
the computed distance, so a wildly out-of-range coordinate behaves exactly
like any in-range coordinate at the same computed distance. -/
theorem c6_amended_gate_total_no_validation (ops : FloatOps) (lib : WebAuthnLib)
    (db : DB) (sess : Session) (cred : PyVal) (loc loc' : LocDict) (lat lon lat' lon' : ℚ)
    (hc : pyTruthy cred = true)
    (hla : loc.latitude = some lat) (hlo : loc.longitude = some lon)
    (hla' : loc'.latitude = some lat') (hlo' : loc'.longitude = some lon')
    (h1 : lat ≠ 0) (h2 : lon ≠ 0) (h3 : lat' ≠ 0) (h4 : lon' ≠ 0)
    (hd : distance ops lat lon OFFICE_LATITUDE OFFICE_LONGITUDE =
          distance ops lat' lon' OFFICE_LATITUDE OFFICE_LONGITUDE) :
    login_finish ops lib ⟨some cred, some loc⟩ db sess =
      login_finish ops lib ⟨some cred, some loc'⟩ db sess := by
  have hz : (lat == (0:ℚ) || lon == (0:ℚ)) = false := by simp [h1, h2]
  have hz' : (lat' == (0:ℚ) || lon' == (0:ℚ)) = false := by simp [h3, h4]
  dsimp only [login_finish]
  simp only [optPyTruthy, hc, optLocTruthy, locTruthy, hla, hlo, hla', hlo',
    Option.isSome_some, Bool.not_true, Bool.false_or, Bool.true_or, Bool.or_self,
    Bool.not_false, Bool.false_eq_true, if_false, hz, hz', hd]

/-- C6 amended witness: under the all-zero float instantiation the invalid
coordinate (1000, 5) and the ordinary coordinate (1, 1) have the same
computed distance, and the two calls are indistinguishable. -/
theorem c6_amended_gate_total_no_validation_witness :
    login_finish opsZero libNone ⟨some (.str "payload"), some ⟨some 1000, some 5, false⟩⟩
        db0 sessC =
      login_finish opsZero libNone ⟨some (.str "payload"), some ⟨some 1, some 1, false⟩⟩
        db0 sessC :=
  c6_amended_gate_total_no_validation opsZero libNone db0 sessC (.str "payload")
    ⟨some 1000, some 5, false⟩ ⟨some 1, some 1, false⟩ 1000 5 1 1 (by decide)
    rfl rfl rfl rfl (by norm_num) (by norm_num) (by norm_num) (by norm_num)
    (by with_unfolding_all decide)

/-- C8: a present location whose latitude or longitude equals 0 — a
perfectly valid coordinate — is rejected as the missing-field error
('Latitude and longitude are required'), because presence is tested with
Python truthiness (`if not lat or not lon`) and `0` is falsy.  The result
is the same for every float instantiation, library, database and session,
and the state is unchanged: the rejection happens before any geofence or
verification work. -/
theorem c8_zero_coordinate_rejected_as_missing (ops : FloatOps) (lib : WebAuthnLib)
    (db : DB) (sess : Session) (cred : PyVal) (loc : LocDict)
    (hc : pyTruthy cred = true)
    (h0 : loc.latitude = some 0 ∨ loc.longitude = some 0) :
    login_finish ops lib ⟨some cred, some loc⟩ db sess = (.missingLatLon, db, sess) := by
  have ht : locTruthy loc = true := by
    rcases h0 with h | h <;> simp [locTruthy, h]
  dsimp only [login_finish]
  simp only [optPyTruthy, hc, optLocTruthy, ht, Bool.not_true, Bool.or_self,
    Bool.false_eq_true, if_false]
  rcases h0 with h | h
  · rw [h]
    rcases loc.longitude with _ | v
    · rfl
    · simp
  · rw [h]
    rcases loc.latitude with _ | v
    · rfl
    · simp

/-- C8 witness: location `{latitude: 0, longitude: 5}` is rejected as
missing fields. -/
theorem c8_zero_coordinate_rejected_as_missing_witness :
    login_finish opsId libNone ⟨some (.str "payload"), some ⟨some 0, some 5, false⟩⟩
        db0 sessC = (.missingLatLon, db0, sessC) :=
  c8_zero_coordinate_rejected_as_missing opsId libNone db0 sessC (.str "payload")
    ⟨some 0, some 5, false⟩ (by decide) (Or.inl rfl)

/-- C9: `register_finish` never re-checks username availability.  When an
Employee with the pending session username already exists at finish time,
the Employee insert violates the unique constraint: the handler neither
returns the conflict error of `register_start` nor cleans the pending
session — it dies with an unhandled error (`serverError`, an HTTP 500),
leaving database and session exactly as they were. -/
theorem c9_no_username_recheck_unhandled_error (lib : WebAuthnLib) (rawBody : String)
    (body : Option PyVal) (db : DB) (sess : Session) (ch u hdl : String)
    (parsed : RegParsed) (rv : RegVerif)
    (hch : sess.challenge = some ch) (hu : sess.username = some u)
    (hhdl : sess.user_handle = some hdl)
    (hbody : optPyTruthy body = true) (hch0 : ch ≠ "") (hu0 : u ≠ "") (hhdl0 : hdl ≠ "")
    (hp : lib.parseRegistration rawBody = some parsed)
    (hv : lib.verifyRegistration parsed ch = .ok rv)
    (hex : ∃ e ∈ db.employees, e.username = u) :
    register_finish lib rawBody body db sess = (.serverError, db, sess) := by
  have hany : (db.employees.any fun e => e.username == u || e.user_handle == hdl) = true := by
    obtain ⟨e, he, heu⟩ := hex
    exact List.any_eq_true.mpr ⟨e, he, by simp [heu]⟩
  dsimp only [register_finish]
  rw [hch, hu, hhdl]
  simp only [hbody, hch0, hu0, hhdl0, hp, hv, hany, Bool.not_true, beq_iff_eq,
    if_false, if_true, decide_eq_true_eq, Bool.or_self, Bool.false_eq_true, if_pos rfl]
  simp [hch0, hu0, hhdl0]

/-- C9 witness: finishing a registration for `alice` while `alice` already
exists dies with the unhandled error and leaves the session pending. -/
theorem c9_no_username_recheck_unhandled_error_witness :
    register_finish libStub "raw" (some (.str "att")) dbAliceX
        ⟨some "c", some "alice", some "hZ"⟩ =
      (.serverError, dbAliceX, ⟨some "c", some "alice", some "hZ"⟩) :=
  c9_no_username_recheck_unhandled_error libStub "raw" (some (.str "att")) dbAliceX
    ⟨some "c", some "alice", some "hZ"⟩ "c" "alice" "hZ" ⟨"raw"⟩ ⟨"cidX", "pkX", 0⟩
    rfl rfl rfl (by decide) (by decide) (by decide) (by decide) rfl rfl
    ⟨⟨0, "hA", "alice"⟩, by decide, rfl⟩

/-- Shared helper: when every earlier gate passes but
`AuthenticationCredential.parse_raw` fails on the re-serialized credential,
`login_finish` returns the generic authentication failure with the state
unchanged. -/
theorem login_finish_parse_fails (ops : FloatOps) (lib : WebAuthnLib) (db : DB) (sess : Session)
    (cred : PyVal) (loc : LocDict) (lat lon : ℚ) (ch : String)
    (hc : pyTruthy cred = true) (hla : loc.latitude = some lat) (hlo : loc.longitude = some lon)
    (hlat0 : lat ≠ 0) (hlon0 : lon ≠ 0)
    (hle : ¬ ALLOWED_DISTANCE_METERS < distance ops lat lon OFFICE_LATITUDE OFFICE_LONGITUDE)
    (hch : sess.challenge = some ch) (hch0 : ch ≠ "")
    (hp : lib.parseAuthentication (pyReplaceQuotes (pyStr cred)) = none) :
    login_finish ops lib ⟨some cred, some loc⟩ db sess = (.authFailed, db, sess) := by
  have hz : (lat == (0:ℚ) || lon == (0:ℚ)) = false := by simp [hlat0, hlon0]
  dsimp only [login_finish]
  rw [hch]
  simp only [optPyTruthy, hc, optLocTruthy, locTruthy, hla, hlo, Option.isSome_some,
    Bool.not_true, Bool.false_or, Bool.true_or, Bool.or_self, Bool.not_false,
    Bool.false_eq_true, if_false, hz, if_neg hle, hp, beq_iff_eq, hch0]

/-- C10: `login_finish` re-serializes the parsed JSON body with Python
`str()` and replaces every single quote by a double quote before JSON
parsing.  For the well-formed payload `cred10` (value `ab'cd` contains a
single quote) the round trip is corrupting: the original request text parses
fine, but `str()` renders the value double-quoted, the blanket replacement
then injects a stray quote, the result is not JSON, `parse_raw` fails, and
the call ends in the generic authentication failure — for every library
whose parser rejects non-JSON input, however valid the underlying assertion
is. -/
theorem c10_quote_replacement_corrupts_payload (lib : WebAuthnLib) (db : DB)
    (hJ : ∀ s, jsonParse s = none → lib.parseAuthentication s = none) :
    jsonParse raw10 = some cred10 ∧
    jsonParse (pyReplaceQuotes (pyStr cred10)) = none ∧
    login_finish opsZero lib body10 db sessC = (.authFailed, db, sessC) := by
  refine ⟨rfl, rfl, ?_⟩
  exact login_finish_parse_fails opsZero lib db sessC cred10
    ⟨some OFFICE_LATITUDE, some OFFICE_LONGITUDE, false⟩ OFFICE_LATITUDE OFFICE_LONGITUDE "c"
    (by decide) rfl rfl (by with_unfolding_all decide) (by with_unfolding_all decide)
    (by with_unfolding_all decide) rfl (by decide) (hJ _ rfl)

/-- C10 witness at the always-failing parser. -/
theorem c10_quote_replacement_corrupts_payload_witness :
    jsonParse raw10 = some cred10 ∧
    jsonParse (pyReplaceQuotes (pyStr cred10)) = none ∧
    login_finish opsZero libNone body10 dbAlice sessC = (.authFailed, dbAlice, sessC) :=
  c10_quote_replacement_corrupts_payload libNone dbAlice (fun _ _ => rfl)

/-- C7: a successful `register_finish` for username `u` followed immediately
by `login_start` for `u` succeeds, and its `allowed_credential_ids` list is
exactly the one-element list of the credential id persisted by that
registration (under the reachable-state invariant that credential rows
reference already-allocated employee ids). -/
theorem c7_register_then_login_start_exact_credential (lib : WebAuthnLib) (rawBody : String)
    (body : Option PyVal) (db : DB) (sess sess2 : Session) (freshCh u : String)
    (hWF : RegWF db)
    (h : (register_finish lib rawBody body db sess).1 = .success u) :
    ∃ row : CredentialRow,
      (register_finish lib rawBody body db sess).2.1.credentials = db.credentials ++ [row] ∧
      (login_start freshCh (some u) (register_finish lib rawBody body db sess).2.1 sess2).1 =
        .started [row.credential_id] := by
  obtain ⟨ch, hdl, parsed, rv, hch, hu, hhdl, htr, hch0, hu0, hhdl0, hparse, hver, hex, hdup,
    heq⟩ := register_finish_success_cases lib rawBody body db sess u h
  rw [heq]
  refine ⟨⟨rv.credential_id, rv.credential_public_key, rv.sign_count, db.nextEmpId⟩, rfl, ?_⟩
  have hnone : db.employees.find? (fun e => e.username == u) = none := by
    refine List.find?_eq_none.mpr (fun e he hbe => ?_)
    have := List.any_eq_false.mp hex e he
    simp only [Bool.or_eq_true, not_or] at this
    exact this.1 hbe
  have hfind : get_employee_by_username
      { db with
          employees := db.employees ++ [⟨db.nextEmpId, hdl, u⟩],
          credentials := db.credentials ++
            [⟨rv.credential_id, rv.credential_public_key, rv.sign_count, db.nextEmpId⟩],
          nextEmpId := db.nextEmpId + 1 } u = some ⟨db.nextEmpId, hdl, u⟩ := by
    unfold get_employee_by_username
    dsimp only
    rw [List.find?_append, hnone]
    simp [List.find?_cons]
  have hcreds : get_credentials_by_employee_id
      { db with
          employees := db.employees ++ [⟨db.nextEmpId, hdl, u⟩],
          credentials := db.credentials ++
            [⟨rv.credential_id, rv.credential_public_key, rv.sign_count, db.nextEmpId⟩],
          nextEmpId := db.nextEmpId + 1 } db.nextEmpId =
      [⟨rv.credential_id, rv.credential_public_key, rv.sign_count, db.nextEmpId⟩] := by
    unfold get_credentials_by_employee_id
    dsimp only
    rw [List.filter_append]
    have hold : db.credentials.filter (fun c => c.employee_id == db.nextEmpId) = [] := by
      refine List.filter_eq_nil_iff.mpr (fun c hc hbc => ?_)
      have hlt := hWF c hc
      simp only [beq_iff_eq] at hbc
      omega
    rw [hold]
    simp
  dsimp only [login_start]
  simp only [hu0, Bool.false_eq_true, if_false]
  rw [hfind]
  dsimp only
  rw [hcreds]
  simp

/-- C7 witness: registering `bob` into the empty database and immediately
starting authentication for `bob` yields exactly the new credential id. -/
theorem c7_register_then_login_start_exact_credential_witness :
    RegWF db0 ∧
    (register_finish libStub "raw" (some (.str "att")) db0 sessBob).1 = .success "bob" ∧
    ∃ row : CredentialRow,
      (register_finish libStub "raw" (some (.str "att")) db0 sessBob).2.1.credentials =
        db0.credentials ++ [row] ∧
      (login_start "c2" (some "bob")
        (register_finish libStub "raw" (some (.str "att")) db0 sessBob).2.1 sessC).1 =
        .started [row.credential_id] := by
  have hWF : RegWF db0 := by intro c hc; cases hc
  refine ⟨hWF, by decide, ?_⟩
  exact c7_register_then_login_start_exact_credential libStub "raw" (some (.str "att"))
    db0 sessBob sessC "c2" "bob" hWF (by decide)

/-- Shared helper: one `login_finish` call never decreases the stored
`sign_count` of any credential, given the library's counter policy and the
credential-id unique constraint. -/
theorem login_finish_signCount_mono (ops : FloatOps) (lib : WebAuthnLib)
    (hpol : CounterPolicy lib) (body : LoginFinishBody) (db : DB) (sess : Session)
    (hU : UniqueCredIds db) (cid : String) (n : ℕ) (hn : signCountOf db cid = some n) :
    ∃ m, signCountOf (login_finish ops lib body db sess).2.1 cid = some m ∧ n ≤ m := by
  rcases login_finish_cases ops lib body db sess with ⟨_, hdb, _⟩ |
    ⟨cred, loc, lat, lon, ch, parsed, uh, emp, dbCred, rv,
      _, _, _, _, _, _, _, _, _, _, _, _, hfind, hver, heq⟩
  · exact ⟨n, by rw [hdb]; exact hn, le_refl n⟩
  · rw [heq]
    unfold signCountOf at hn ⊢
    dsimp only
    rw [List.find?_map]
    have hcomp : ((fun c : CredentialRow => c.credential_id == cid) ∘
        (fun c => if c.credential_id == dbCred.credential_id then
          { c with sign_count := rv.new_sign_count } else c)) =
        (fun c : CredentialRow => c.credential_id == cid) := by
      funext c
      by_cases hcc : (c.credential_id == dbCred.credential_id) = true <;>
        simp [Function.comp, hcc]
    rw [hcomp]
    obtain ⟨r, hr, hrn⟩ := Option.map_eq_some'.mp hn
    rw [hr]
    by_cases hcc : (r.credential_id == dbCred.credential_id) = true
    · have hrid : r.credential_id = dbCred.credential_id := by simpa using hcc
      have hrmem : r ∈ db.credentials := List.mem_of_find?_eq_some hr
      have hdmem : dbCred ∈ db.credentials := List.mem_of_find?_eq_some hfind
      have hrd : r = dbCred := List.inj_on_of_nodup_map hU hrmem hdmem hrid
      refine ⟨rv.new_sign_count, by simp [hrid], ?_⟩
      have hle := hpol parsed ch dbCred.public_key dbCred.sign_count rv hver
      rw [← hrn, hrd]
      exact hle
    · have hne : ¬ r.credential_id = dbCred.credential_id := by simpa using hcc
      exact ⟨n, by simp [hne, hrn], le_refl n⟩

/-- Shared helper: `login_finish` preserves the credential-id unique
constraint (it only ever rewrites a `sign_count` in place). -/
theorem login_finish_preserves_uniqueCredIds (ops : FloatOps) (lib : WebAuthnLib)
    (body : LoginFinishBody) (db : DB) (sess : Session) (hU : UniqueCredIds db) :
    UniqueCredIds (login_finish ops lib body db sess).2.1 := by
  rcases login_finish_cases ops lib body db sess with ⟨_, hdb, _⟩ |
    ⟨cred, loc, lat, lon, ch, parsed, uh, emp, dbCred, rv,
      _, _, _, _, _, _, _, _, _, _, _, _, _, _, heq⟩
  · rw [hdb]; exact hU
  · rw [heq]
    unfold UniqueCredIds at hU ⊢
    dsimp only
    rw [List.map_map]
    have hcomp : ((fun c : CredentialRow => c.credential_id) ∘
        (fun c => if c.credential_id == dbCred.credential_id then
          { c with sign_count := rv.new_sign_count } else c)) =
        (fun c : CredentialRow => c.credential_id) := by
      funext c
      by_cases hcc : (c.credential_id == dbCred.credential_id) = true <;>
        simp [Function.comp, hcc]
    rw [hcomp]
    exact hU

/-- Shared helper: across any sequence of `login_finish` calls the stored
`sign_count` of any credential is non-decreasing. -/
theorem runLoginSeq_signCount_mono (ops : FloatOps) (lib : WebAuthnLib)
    (hpol : CounterPolicy lib) :
    ∀ (bodies : List LoginFinishBody) (db : DB) (sess : Session), UniqueCredIds db →
      ∀ cid n, signCountOf db cid = some n →
        ∃ m, signCountOf (runLoginSeq ops lib (db, sess) bodies).1 cid = some m ∧ n ≤ m := by
  intro bodies
  induction bodies with
  | nil => exact fun db sess _ cid n hn => ⟨n, hn, le_refl n⟩
  | cons b bs ih =>
    intro db sess hU cid n hn
    obtain ⟨m1, hm1, hnm1⟩ := login_finish_signCount_mono ops lib hpol b db sess hU cid n hn
    have hU' := login_finish_preserves_uniqueCredIds ops lib b db sess hU
    obtain ⟨m2, hm2, hm12⟩ := ih (login_finish ops lib b db sess).2.1
      (login_finish ops lib b db sess).2.2 hU' cid m1 hm1
    refine ⟨m2, ?_, le_trans hnm1 hm12⟩
    simpa [runLoginSeq, loginStep] using hm2

/-- A library stub obeying the counter policy: authentication verifies with
new counter `stored + 1`. -/
def libCounter : WebAuthnLib :=
  ⟨fun r => some ⟨r⟩, fun _ _ => .ok ⟨"cidX", "pkX", 0⟩,
   fun _ => some ⟨"cid0", some "h0", ""⟩, fun _ _ _ cur => .ok ⟨cur + 1⟩⟩

/-- C2: for every library obeying the monotonicity policy (a successful
verification reports a counter at least the stored one — the spec's §3
invariant, modelled from the spec because the library is an external
collaborator) and every database satisfying the credential-id unique
constraint: (a) a rejected `FinishAuthentication` leaves every stored
credential row unchanged; (b) a successful one persists exactly the
library-reported `new_sign_count` to the matching credential row, which is
at least the previously stored value; (c) across any sequence of
`FinishAuthentication` calls the stored `sign_count` of each credential is
monotonically non-decreasing. -/
theorem c2_sign_count_monotone (ops : FloatOps) (lib : WebAuthnLib)
    (hpol : CounterPolicy lib) (db : DB) (sess : Session) (hU : UniqueCredIds db) :
    (∀ body, (login_finish ops lib body db sess).1.isSuccess = false →
      (login_finish ops lib body db sess).2.1.credentials = db.credentials)
    ∧ (∀ body u, (login_finish ops lib body db sess).1 = .success u →
      ∃ ch parsed dbCred rv,
        sess.challenge = some ch ∧
        db.credentials.find? (fun c => c.credential_id == parsed.id) = some dbCred ∧
        lib.verifyAuthentication parsed ch dbCred.public_key dbCred.sign_count = .ok rv ∧
        dbCred.sign_count ≤ rv.new_sign_count ∧
        signCountOf (login_finish ops lib body db sess).2.1 dbCred.credential_id =
          some rv.new_sign_count)
    ∧ (∀ bodies cid n, signCountOf db cid = some n →
      ∃ m, signCountOf (runLoginSeq ops lib (db, sess) bodies).1 cid = some m ∧ n ≤ m) := by
  refine ⟨?_, ?_, ?_⟩
  · intro body hfail
    rcases login_finish_cases ops lib body db sess with ⟨_, hdb, _⟩ |
      ⟨cred, loc, lat, lon, ch, parsed, uh, emp, dbCred, rv,
        _, _, _, _, _, _, _, _, _, _, _, _, _, _, heq⟩
    · rw [hdb]
    · rw [heq] at hfail
      simp [LoginFinishResult.isSuccess] at hfail
  · intro body u hsucc
    rcases login_finish_cases ops lib body db sess with ⟨hf, _, _⟩ |
      ⟨cred, loc, lat, lon, ch, parsed, uh, emp, dbCred, rv,
        _, _, _, _, _, _, _, hch, _, _, _, _, hfind, hver, heq⟩
    · rw [hsucc] at hf
      simp [LoginFinishResult.isSuccess] at hf
    · have hle := hpol parsed ch dbCred.public_key dbCred.sign_count rv hver
      refine ⟨ch, parsed, dbCred, rv, hch, hfind, hver, hle, ?_⟩
      rw [heq]
      unfold signCountOf
      dsimp only
      rw [List.find?_map]
      have hdid : dbCred.credential_id = parsed.id := by
        simpa using List.find?_some hfind
      have hcomp : ((fun c : CredentialRow => c.credential_id == dbCred.credential_id) ∘
          (fun c => if c.credential_id == dbCred.credential_id then
            { c with sign_count := rv.new_sign_count } else c)) =
          (fun c : CredentialRow => c.credential_id == parsed.id) := by
        funext c
        rw [← hdid]
        dsimp only [Function.comp]
        by_cases hcc : c.credential_id = dbCred.credential_id
        · simp [hcc]
        · simp [hcc]
      rw [hcomp, hfind]
      simp
  · intro bodies cid n hn
    exact runLoginSeq_signCount_mono ops lib hpol bodies db sess hU cid n hn

/-- C2 witness: with the policy-obeying stub library, authenticating `alice`
once from counter 0 yields a stored counter `m ≥ 0`. -/
theorem c2_sign_count_monotone_witness :
    CounterPolicy libCounter ∧ UniqueCredIds dbAlice ∧
    ∃ m, signCountOf (runLoginSeq opsZero libCounter (dbAlice, sessC) [bodyOffice]).1 "cid0" =
      some m ∧ 0 ≤ m := by
  have hpol : CounterPolicy libCounter := by
    intro a ch pk cur rv h
    injection h with h1
    rw [← h1]
    exact Nat.le_succ cur
  have hU : UniqueCredIds dbAlice := by
    unfold UniqueCredIds dbAlice
    simp
  exact ⟨hpol, hU,
    (c2_sign_count_monotone opsZero libCounter hpol dbAlice sessC hU).2.2 [bodyOffice]
      "cid0" 0 rfl⟩
